import Mathlib

/-!
Shallow embedding of the dax manager (src/dax/dax_manager.py and src/dax/bin.py)
together with proofs about its lock reaping, settings-catalog generation, build
scheduling, stage fault handling, duration formatting and cycle ordering.

External collaborators (the filesystem, the process table, the REDCap registry,
the yaml loader, the dax launcher object) are modelled as explicit inputs:
file contents, liveness probes and record snapshots are parameters of the
embedded functions, and effects (log lines, lock releases, registry writes,
dynamic loads) are returned as explicit event lists and updated values.
-/

namespace Dax

/- ===================== Python string helpers ===================== -/

/-- Model of str.split with a single-character separator, on character lists.
For example splitting "a-b" at the dash gives ["a", "b"], and splitting the
empty string gives [""]. -/
def pySplitChar (sep : Char) : List Char → List (List Char)
  | [] => [[]]
  | c :: rest =>
    if c = sep then [] :: pySplitChar sep rest
    else (c :: (pySplitChar sep rest).headD []) :: (pySplitChar sep rest).tail

/-- Model of str.strip with no arguments: drop whitespace from both ends. -/
def trimChars (cs : List Char) : List Char :=
  ((cs.dropWhile Char.isWhitespace).reverse.dropWhile Char.isWhitespace).reverse

/-- Value of a nonempty all-digit character list, else none. -/
def digitsVal? (cs : List Char) : Option Nat :=
  if cs ≠ [] ∧ cs.all Char.isDigit then
    some (cs.foldl (fun n c => 10 * n + (c.toNat - 48)) 0)
  else none

/-- Model of the Python int() conversion applied to a string: surrounding
whitespace is stripped, an optional sign is allowed, and the remainder must be
nonempty and all digits; otherwise a ValueError is raised (none here). -/
def pyIntChars (cs : List Char) : Option Int :=
  match trimChars cs with
  | [] => none
  | c :: ds =>
    if c = '+' then (digitsVal? ds).map (fun n => Int.ofNat n)
    else if c = '-' then (digitsVal? ds).map (fun n => -(Int.ofNat n))
    else (digitsVal? (c :: ds)).map (fun n => Int.ofNat n)

/-- Model of socket.gethostname().split <dot> [0]: the short hostname. -/
def shortHost (hostFull : String) : String :=
  String.mk ((pySplitChar '.' hostFull.toList).headD [])

/-- Model of os.path.basename for slash-separated paths. -/
def pyBasename (p : String) : String :=
  (p.splitOn "/").getLastD ""

/-- Model of os.path.splitext applied to a basename, returning the stem:
split at the last dot, except when every character before that dot is itself a
dot (so a leading-dot name such as .bashrc keeps its full name). -/
def pySplitextStem (b : String) : String :=
  let cs := b.toList
  let rev := cs.reverse
  let ext := rev.takeWhile (fun c => c ≠ '.')
  if ext.length = rev.length then b
  else
    let pre := (rev.drop (ext.length + 1)).reverse
    if pre.all (fun c => c = '.') then b else String.mk pre

/-- The lockfile stem of a settings path:
os.path.splitext(os.path.basename(settings_path))[0]. -/
def lockfile_stem (settings_path : String) : String :=
  pySplitextStem (pyBasename settings_path)

/-- Path of a flag file: resultsDir/FlagFiles/stem_SUFFIX, as built by
is_locked in dax_manager.py and by the handlers in bin.py. -/
def flag_path (resultsDir stem suffix : String) : String :=
  resultsDir ++ "/FlagFiles/" ++ stem ++ "_" ++ suffix

/- ===================== Lock registry (check_lockfile, pid_exists) ===================== -/

/-- Outcome of the os.kill(pid, 0) probe used by pid_exists: the call
succeeds, raises ProcessLookupError, or raises PermissionError. -/
inductive KillRes where
  | ok
  | noSuchProcess
  | permissionDenied
deriving DecidableEq

/-- Embedding of pid_exists from dax_manager.py. The process table is the
probe parameter. -/
def pid_exists (probe : Int → KillRes) (pid : Int) : Bool :=
  if pid < 0 then false
  else
    match probe pid with
    | KillRes.noSuchProcess => false
    | KillRes.permissionDenied => true
    | KillRes.ok => true

/-- Parse of the first lock-file line as done by check_lockfile:
host, pid = line.split at dash (exactly two pieces required), then
pid = int(pid). -/
def parseLockLine (line : String) : Option (String × Int) :=
  match pySplitChar '-' line.data with
  | [hostCs, pidCs] =>
    match pyIntChars pidCs with
    | some pid => some (String.mk hostCs, pid)
    | none => none
  | _ => none

/-- Embedding of check_lockfile from dax_manager.py. content is the result of
reading the first line of the file (none models an IOError, which the source
catches). The returned Bool tells whether os.remove was invoked on the file:
true only when the line parses, the recorded host equals the local short
hostname, and pid_exists answers false. -/
def check_lockfile (hostFull : String) (probe : Int → KillRes)
    (content : Option String) : Bool :=
  match content with
  | none => false
  | some line =>
    match parseLockLine line with
    | none => false
    | some (host, pid) =>
      if host = shortHost hostFull then
        if pid_exists probe pid then false else true
      else false

/- ===================== Project catalog filter (get_this_instance, project_names) ===================== -/

/-- Embedding of get_this_instance from dax_manager.py: user at short
hostname, with no case folding. -/
def get_this_instance (user hostFull : String) : String :=
  user ++ "@" ++ shortHost hostFull

/-- Identity string as worded by the specification, which asks for the
lowercased hostname without domain. Stated only to be compared against
get_this_instance as the code computes it. -/
def get_this_instance_lowered (user hostFull : String) : String :=
  user ++ "@" ++
    String.mk (((pySplitChar '.' hostFull.toList).headD []).map Char.toLower)

/-- One row of the REDCap project export used by project_names, holding the
project_name field, the gen_daxinstance field and the general_complete label. -/
structure ProjRow where
  project_name : String
  gen_daxinstance : String
  general_complete : String

/-- Embedding of DaxProjectSettingsManager.project_names: filter the rows to
this instance, then keep the names of rows whose completion label is the
literal Complete. -/
def project_names (user hostFull : String) (plist : List ProjRow) : List String :=
  let this_instance := get_this_instance user hostFull
  let mine := plist.filter (fun x => x.gen_daxinstance == this_instance)
  (mine.filter (fun x => x.general_complete == "Complete")).map
    (fun x => x.project_name)

/- ===================== Cycle ordering (DaxManager.run and the main block) ===================== -/

/-- Events of one manager cycle, in the order the coordinator performs them. -/
inductive CycleEv where
  | reapLocks
  | regenCatalog
  | submitBuild (p : String)
  | runUpdate (p : String)
  | runLaunch (p : String)
  | uploadStart
  | uploadJoin
  | buildPoolJoin
deriving DecidableEq

/-- Trace of DaxManager.run: queue every build on the pool, then update each
project, then launch each project, then start and join the upload process,
then join the build pool. -/
def manager_run (projects : List String) : List CycleEv :=
  (projects.map CycleEv.submitBuild) ++ (projects.map CycleEv.runUpdate) ++
    (projects.map CycleEv.runLaunch) ++
    [CycleEv.uploadStart, CycleEv.uploadJoin, CycleEv.buildPoolJoin]

/-- Trace of the main block of dax_manager.py: clean_lockfiles, then the
DaxManager constructor regenerates the catalog (refresh_settings), then run. -/
def main_trace (projects : List String) : List CycleEv :=
  CycleEv.reapLocks :: CycleEv.regenCatalog :: manager_run projects

/-- e1 occurs strictly before e2 in the trace tr. -/
def precedes (e1 e2 : CycleEv) (tr : List CycleEv) : Prop :=
  ∃ l1 l2 l3, tr = l1 ++ e1 :: (l2 ++ e2 :: l3)

/- ===================== Timestamps and duration ===================== -/

/-- A parsed timestamp in the RCDATEFORMAT layout. -/
structure DT where
  year : Nat
  month : Nat
  day : Nat
  hour : Nat
  minute : Nat
  second : Nat
deriving DecidableEq

def isLeap (y : Nat) : Bool :=
  y % 4 == 0 && (y % 100 != 0 || y % 400 == 0)

def daysInMonth (y m : Nat) : Nat :=
  if m = 2 then (if isLeap y then 29 else 28)
  else if m = 4 ∨ m = 6 ∨ m = 9 ∨ m = 11 then 30
  else 31

/-- A one- or two-digit numeric field with an inclusive value range, as the
strptime patterns for month, day, hour, minute and second accept (second
values 60 and 61 pass the pattern but are rejected by the datetime
constructor, so the net admissible range is used here). -/
def field2? (cs : List Char) (lo hi : Nat) : Option Nat :=
  if cs.length = 1 ∨ cs.length = 2 then
    match digitsVal? cs with
    | some v => if lo ≤ v ∧ v ≤ hi then some v else none
    | none => none
  else none

/-- An exactly-four-digit year of value at least 1 (datetime.MINYEAR). -/
def year4? (cs : List Char) : Option Nat :=
  if cs.length = 4 then
    match digitsVal? cs with
    | some v => if 1 ≤ v then some v else none
    | none => none
  else none

/-- Embedding of datetime.strptime with format %Y-%m-%d %H:%M:%S, including
the validation the datetime constructor performs (day within the month,
ranges of every field). The literal space in the format matches a run of
whitespace and the whole string must be consumed, so the input is cut at its
first whitespace run. A failure models the ValueError strptime raises. -/
def parseRC (s : String) : Option DT :=
  let cs := s.toList
  let datePart := cs.takeWhile (fun c => !c.isWhitespace)
  let timePart := (cs.dropWhile (fun c => !c.isWhitespace)).dropWhile Char.isWhitespace
  match pySplitChar '-' datePart, pySplitChar ':' timePart with
  | [ys, ms, ds], [hs, ns, ss] =>
    match year4? ys, field2? ms 1 12, field2? ds 1 31, field2? hs 0 23,
        field2? ns 0 59, field2? ss 0 59 with
    | some y, some mo, some d, some h, some mi, some se =>
      if d ≤ daysInMonth y mo then some ⟨y, mo, d, h, mi, se⟩ else none
    | _, _, _, _, _, _ => none
  | _, _ => none

/-- Days since the civil epoch of the algorithm (days-from-civil), counted
over the proleptic Gregorian calendar that datetime uses. Only differences of
this count matter below. -/
def daysFromCivil (y m d : Nat) : Nat :=
  let yAdj := if m ≤ 2 then y - 1 else y
  let era := yAdj / 400
  let yoe := yAdj % 400
  let mp := (m + 9) % 12
  let doy := (153 * mp + 2) / 5 + d - 1
  let doe := yoe * 365 + yoe / 4 - yoe / 100 + doy
  era * 146097 + doe

/-- Absolute second count of a parsed timestamp; the difference of two of
these equals total_seconds() of the corresponding datetime difference. -/
def dtSecs (t : DT) : Int :=
  ((daysFromCivil t.year t.month t.day * 86400 +
    t.hour * 3600 + t.minute * 60 + t.second : Nat) : Int)

/-- Embedding of DaxProjectSettingsManager.duration: parse both timestamps
with RCDATEFORMAT, take the floored hour and minute parts of the difference
(Python floor division and nonnegative modulo), and format; any parse failure
is caught and yields None. -/
def duration (start_time finish_time : String) : Option String :=
  match parseRC start_time, parseRC finish_time with
  | some st, some fi =>
    let secs : Int := dtSecs fi - dtSecs st
    let hours : Int := Int.fdiv secs 3600
    let mins : Int := Int.fdiv (Int.fmod secs 3600) 60
    if hours > 0 then
      some (toString hours ++ " hrs " ++ toString mins ++ " mins")
    else
      some (toString mins ++ " mins")
  | _, _ => none

/- ===================== Build scheduler (run_build and registry bookkeeping) ===================== -/

/-- A Python exception as observed by the handlers in bin.py: its class, its
message text, and whether the exception object actually carries a message
attribute. Ordinary Python 3 exceptions do not (the attribute was removed
after Python 2), so evaluating e.message on them raises AttributeError; the
code of this repository runs under Python 3, as its use of
ProcessLookupError and PermissionError in dax_manager.py requires. -/
structure PFault where
  cls : String
  msg : String
  hasMessageAttr : Bool

/-- The per-project build bookkeeping fields of the remote registry record.
REDCap returns the empty string for a field never written. -/
structure RegRecord where
  build_laststarttime : String
  build_lastcompletestarttime : String
  build_lastcompletefinishtime : String
  build_lastcompleteduration : Option String
  build_status_complete : String

/-- Embedding of is_locked from dax_manager.py: the build flag file for the
settings path exists. locks is the set of existing flag-file paths. -/
def is_locked (resultsDir buildSuffix : String) (locks : List String)
    (settings_path : String) : Bool :=
  locks.contains (flag_path resultsDir (lockfile_stem settings_path) buildSuffix)

/-- Embedding of DaxProjectSettingsManager.set_last_build_start. The remote
registry either acknowledges the import (ack) or fails, in which case the
source raises DaxManagerError; the two source failure branches are collapsed
into one modelled fault. -/
def set_last_build_start (ack : Bool) (tNow : String) (reg : RegRecord) :
    Except PFault RegRecord :=
  if ack then
    Except.ok { reg with build_laststarttime := tNow, build_status_complete := "1" }
  else
    Except.error ⟨"DaxManagerError", "Error with dax manager:redcap import failed", false⟩

/-- Embedding of DaxProjectSettingsManager.set_last_build_complete: re-export
the last start time, derive the duration, and write start, finish, duration
and the complete status code. -/
def set_last_build_complete (ack : Bool) (tNow : String) (reg : RegRecord) :
    Except PFault RegRecord :=
  let last_start := reg.build_laststarttime
  let last_duration := duration last_start tNow
  if ack then
    Except.ok { reg with
      build_lastcompletestarttime := last_start,
      build_lastcompletefinishtime := tNow,
      build_lastcompleteduration := last_duration,
      build_status_complete := "2" }
  else
    Except.error ⟨"DaxManagerError", "Error with dax manager:redcap import failed", false⟩

/-- Observable steps of one run_build task. -/
inductive BEv where
  | warnLocked
  | setStart (t : String)
  | invokeBinBuild (settings : String) (proj_lastrun : List (String × Option String))
  | setComplete (t : String)
deriving DecidableEq

/-- Embedding of DaxManager.run_build for one project. The collaborator
dax.bin.build is modelled by its outcome binBuild; ack models the registry
acknowledgment of imports; tStart and tFinish are the two datetime.now() reads.
Returns the registry record after the task, the steps performed, and the
task outcome (Except.error f means the fault f escaped the task uncaught). -/
def run_build (resultsDir buildSuffix : String) (locks : List String)
    (project settings_file : String) (lastrun : Option String)
    (binBuild : Except PFault Unit) (ack : Bool) (tStart tFinish : String)
    (reg : RegRecord) : RegRecord × List BEv × Except PFault Unit :=
  if is_locked resultsDir buildSuffix locks settings_file then
    (reg, [BEv.warnLocked], Except.ok ())
  else
    match set_last_build_start ack tStart reg with
    | Except.error e => (reg, [], Except.error e)
    | Except.ok reg1 =>
      match binBuild with
      | Except.error e =>
        (reg1, [BEv.setStart tStart, BEv.invokeBinBuild settings_file [(project, lastrun)]],
         Except.error e)
      | Except.ok _ =>
        match set_last_build_complete ack tFinish reg1 with
        | Except.error e =>
          (reg1, [BEv.setStart tStart, BEv.invokeBinBuild settings_file [(project, lastrun)]],
           Except.error e)
        | Except.ok reg2 =>
          (reg2,
           [BEv.setStart tStart, BEv.invokeBinBuild settings_file [(project, lastrun)],
            BEv.setComplete tFinish],
           Except.ok ())

/- ===================== Stage handlers of bin.py (update_tasks, launch_jobs) ===================== -/

/-- Observable steps of one update_tasks or launch_jobs invocation. -/
inductive StageEv where
  | readSettings
  | invokeCollab
  | logCritical (msg : String)
  | unlockFlag (path : String)
deriving DecidableEq

/-- Embedding of bin.update_tasks. readRes is the outcome of read_settings
(outside the try block, so its fault propagates); collab is the outcome of
the launcher update_tasks call. The except handler first logs its fixed
caught-exception line, then builds the second log line from e.__class__ and
e.message: when the exception object carries a message attribute this
succeeds and the handler goes on to unlock the update flag file and return
normally, but for an ordinary Python 3 exception the e.message access raises
AttributeError inside the handler, so the class-and-message line is never
logged, the flag file is never unlocked, and the AttributeError propagates
out of the invocation. -/
def update_tasks (resultsDir updSuffix settings_path : String)
    (readRes : Except PFault Unit) (collab : Except PFault Unit) :
    List StageEv × Except PFault Unit :=
  match readRes with
  | Except.error e => ([StageEv.readSettings], Except.error e)
  | Except.ok _ =>
    match collab with
    | Except.ok _ => ([StageEv.readSettings, StageEv.invokeCollab], Except.ok ())
    | Except.error e =>
      if e.hasMessageAttr then
        ([StageEv.readSettings, StageEv.invokeCollab,
          StageEv.logCritical "Caught exception updating tasks in bin.update_tasks",
          StageEv.logCritical ("Exception Class " ++ e.cls ++ " with message " ++ e.msg),
          StageEv.unlockFlag (flag_path resultsDir (lockfile_stem settings_path) updSuffix)],
         Except.ok ())
      else
        ([StageEv.readSettings, StageEv.invokeCollab,
          StageEv.logCritical "Caught exception updating tasks in bin.update_tasks"],
         Except.error ⟨"AttributeError", e.cls ++ " object has no attribute message", false⟩)

/-- Embedding of bin.launch_jobs, with the same handler structure as
update_tasks (including the e.message AttributeError path under Python 3)
but its own log line and the launch flag file. -/
def launch_jobs (resultsDir launchSuffix settings_path : String)
    (readRes : Except PFault Unit) (collab : Except PFault Unit) :
    List StageEv × Except PFault Unit :=
  match readRes with
  | Except.error e => ([StageEv.readSettings], Except.error e)
  | Except.ok _ =>
    match collab with
    | Except.ok _ => ([StageEv.readSettings, StageEv.invokeCollab], Except.ok ())
    | Except.error e =>
      if e.hasMessageAttr then
        ([StageEv.readSettings, StageEv.invokeCollab,
          StageEv.logCritical "Caught exception launching jobs in bin.launch_jobs",
          StageEv.logCritical ("Exception Class " ++ e.cls ++ " with message " ++ e.msg),
          StageEv.unlockFlag (flag_path resultsDir (lockfile_stem settings_path) launchSuffix)],
         Except.ok ())
      else
        ([StageEv.readSettings, StageEv.invokeCollab,
          StageEv.logCritical "Caught exception launching jobs in bin.launch_jobs"],
         Except.error ⟨"AttributeError", e.cls ++ " object has no attribute message", false⟩)

/- ===================== Settings catalog (DaxProjectSettings, write_each) ===================== -/

/-- A yaml-style value as the settings documents hold them. -/
inductive YVal where
  | str (s : String)
  | int (n : Int)
  | list (xs : List YVal)
  | dict (kvs : List (String × YVal))

/-- Item assignment on a Python dict modelled as an association list: an
existing key is overwritten in place, a new key is appended. -/
def pyAssocSet {α : Type} (d : List (String × α)) (k : String) (v : α) :
    List (String × α) :=
  if d.any (fun p => p.1 == k) then
    d.map (fun p => if p.1 == k then (k, v) else p)
  else d ++ [(k, v)]

/-- dict.get for string keys. -/
def pyGet (kvs : List (String × YVal)) (k : String) : Option YVal :=
  (kvs.find? (fun p => p.1 == k)).map (fun p => p.2)

/-- The instance settings record fields that general_defaults reads. -/
structure InstanceSettings where
  main_processorlib : String
  main_modulelib : String
  main_singularityimagedir : String
  main_queuelimit : String
  main_jobemailoptions : String
  main_xnathost : String

/-- The general section record built by general_defaults, given the already
converted queue limit. -/
def generalRecord (ins : InstanceSettings) (ql : Int) : List (String × YVal) :=
  [("processorlib", YVal.str ins.main_processorlib),
   ("modulelib", YVal.str ins.main_modulelib),
   ("singularity_imagedir", YVal.str ins.main_singularityimagedir),
   ("attrs", YVal.dict
     [("queue_limit", YVal.int ql),
      ("job_email_options", YVal.str ins.main_jobemailoptions),
      ("xnat_host", YVal.str ins.main_xnathost)])]

/-- Embedding of DaxProjectSettingsManager.general_defaults. The int()
conversion of the queue limit can raise a ValueError, which propagates. -/
def general_defaults (ins : InstanceSettings) : Except String (List (String × YVal)) :=
  match pyIntChars ins.main_queuelimit.toList with
  | some ql => Except.ok (generalRecord ins ql)
  | none => Except.error "ValueError: invalid literal for int"

/-- Embedding of the DaxProjectSettings accumulator object. -/
structure DaxProjectSettings where
  general : List (String × YVal)
  processors : List YVal
  modules : List YVal
  projects : List YVal

def DaxProjectSettings.set_general (s : DaxProjectSettings)
    (g : List (String × YVal)) : DaxProjectSettings :=
  { s with general := g }

def DaxProjectSettings.add_processor (s : DaxProjectSettings) (p : YVal) :
    DaxProjectSettings :=
  { s with processors := s.processors ++ [p] }

def DaxProjectSettings.add_module (s : DaxProjectSettings) (m : YVal) :
    DaxProjectSettings :=
  { s with modules := s.modules ++ [m] }

def DaxProjectSettings.add_project (s : DaxProjectSettings) (p : YVal) :
    DaxProjectSettings :=
  { s with projects := s.projects ++ [p] }

/-- Embedding of DaxProjectSettings.dump: the general section spread first,
then the modules list, then the processors list under the yamlprocessors key,
then the projects list. No processors key is ever produced. -/
def DaxProjectSettings.dump (s : DaxProjectSettings) : List (String × YVal) :=
  pyAssocSet
    (pyAssocSet
      (pyAssocSet s.general "modules" (YVal.list s.modules))
      "yamlprocessors" (YVal.list s.processors))
    "projects" (YVal.list s.projects)

/-- Key presence in a settings document. -/
def hasKey (doc : List (String × YVal)) (k : String) : Bool :=
  doc.any (fun p => p.1 == k)

/-- Embedding of bin.raise_yaml_error_if_no_key: DaxError when the key is
absent from the document. -/
def raise_yaml_error_if_no_key (doc : List (String × YVal)) (yaml_file key : String) :
    Except String Unit :=
  if hasKey doc key then Except.ok ()
  else
    Except.error ("YAML File " ++ yaml_file ++ " does not have " ++ key ++
      " defined. See example.")

/-- The required top-level keys, in the order bin.check_default_keys tests
them. -/
def requiredKeys : List String :=
  ["projects", "attrs", "modules", "processors", "yamlprocessors"]

/-- The loop body of bin.check_default_keys over a key list. -/
def checkKeysLoop (doc : List (String × YVal)) (yaml_file : String) :
    List String → Except String Unit
  | [] => Except.ok ()
  | k :: rest =>
    match raise_yaml_error_if_no_key doc yaml_file k with
    | Except.error e => Except.error e
    | Except.ok _ => checkKeysLoop doc yaml_file rest

/-- Embedding of bin.check_default_keys. -/
def check_default_keys (yaml_file : String) (doc : List (String × YVal)) :
    Except String Unit :=
  checkKeysLoop doc yaml_file requiredKeys

/-- A snapshot of the remote registry as the settings manager consumes it:
the form names, the project rows of the general export, and for every
(form, project) pair the list of records the export returns. -/
structure Snapshot where
  forms : List String
  projRows : List ProjRow
  formRecs : String → String → List (List (String × String))

def MOD_PREFIX : String := "module_"

def PROC_PREFIX : String := "processor_"

def FILE_HEADER : String :=
  "# This file generated by dax manager.\n# Edits should be made on REDCap.\n"

/-- Embedding of load_module_names: forms starting with the module form
name start, with that start removed (split at it, piece 1). -/
def load_module_names (snap : Snapshot) : List String :=
  (snap.forms.filter (fun x => x.startsWith MOD_PREFIX)).map
    (fun x => (x.splitOn MOD_PREFIX).getD 1 "")

/-- Embedding of load_processor_names. -/
def load_processor_names (snap : Snapshot) : List String :=
  (snap.forms.filter (fun x => x.startsWith PROC_PREFIX)).map
    (fun x => (x.splitOn PROC_PREFIX).getD 1 "")

/-- Lookup of a field in an exported record; a missing field is a KeyError,
which propagates. -/
def pyLookup (rec : List (String × String)) (k : String) : Except String String :=
  match rec.find? (fun p => p.1 == k) with
  | some p => Except.ok p.2
  | none => Except.error ("KeyError: " ++ k)

/-- The argument parsing shared by load_module_record and
load_processor_record: strip, split at CRLF, split every line at its first
colon (a line with no colon raises a ValueError), strip the value, collect
into a dict. -/
def parseArgsLoop (acc : List (String × YVal)) :
    List String → Except String (List (String × YVal))
  | [] => Except.ok acc
  | arg :: rest =>
    match arg.splitOn ":" with
    | [] => Except.error "ValueError: not enough values to unpack"
    | [_] => Except.error "ValueError: not enough values to unpack"
    | k :: v0 :: vs =>
      let v := String.intercalate ":" (v0 :: vs)
      parseArgsLoop (pyAssocSet acc k (YVal.str (String.mk (trimChars v.toList)))) rest

def parseArgsStr (s : String) : Except String (List (String × YVal)) :=
  parseArgsLoop [] ((String.mk (trimChars s.toList)).splitOn "\r\n")

/-- Embedding of load_module_record: take the first exported record for the
module form and this project (an empty export is an IndexError), find the
unique field name ending in _file (zero or several raise DaxManagerError),
read the filepath from it, and parse the matching _args field when it is
nonempty. -/
def load_module_record (snap : Snapshot) (module project : String) :
    Except String YVal :=
  match snap.formRecs (MOD_PREFIX ++ module) project with
  | [] => Except.error "IndexError: list index out of range"
  | rc_rec :: _ =>
    match (rc_rec.map (fun p => p.1)).filter (fun x => x.endsWith "_file") with
    | [] =>
      Except.error ("Error with dax manager:no _file key for module:" ++ module)
    | [file_key] =>
      let keyStart := (file_key.splitOn "_file").headD ""
      match pyLookup rc_rec file_key with
      | Except.error e => Except.error e
      | Except.ok fp =>
        match pyLookup rc_rec (keyStart ++ "_args") with
        | Except.error e => Except.error e
        | Except.ok argsv =>
          if argsv ≠ "" then
            match parseArgsStr argsv with
            | Except.error e => Except.error e
            | Except.ok args =>
              Except.ok (YVal.dict
                [("name", YVal.str module), ("filepath", YVal.str fp),
                 ("arguments", YVal.dict args)])
          else
            Except.ok (YVal.dict [("name", YVal.str module), ("filepath", YVal.str fp)])
    | _ :: _ :: _ =>
      Except.error ("Error with dax manager:multiple _file keys for module:" ++ module)

/-- Embedding of load_processor_record, identical in structure to
load_module_record with the processor form start and its own messages. -/
def load_processor_record (snap : Snapshot) (processor project : String) :
    Except String YVal :=
  match snap.formRecs (PROC_PREFIX ++ processor) project with
  | [] => Except.error "IndexError: list index out of range"
  | rc_rec :: _ =>
    match (rc_rec.map (fun p => p.1)).filter (fun x => x.endsWith "_file") with
    | [] =>
      Except.error ("Error with dax manager:no _file key found for proc:" ++ processor)
    | [file_key] =>
      let keyStart := (file_key.splitOn "_file").headD ""
      match pyLookup rc_rec file_key with
      | Except.error e => Except.error e
      | Except.ok fp =>
        match pyLookup rc_rec (keyStart ++ "_args") with
        | Except.error e => Except.error e
        | Except.ok argsv =>
          if argsv ≠ "" then
            match parseArgsStr argsv with
            | Except.error e => Except.error e
            | Except.ok args =>
              Except.ok (YVal.dict
                [("name", YVal.str processor), ("filepath", YVal.str fp),
                 ("arguments", YVal.dict args)])
          else
            Except.ok (YVal.dict [("name", YVal.str processor), ("filepath", YVal.str fp)])
    | _ :: _ :: _ =>
      Except.error ("Error with dax manager:multiple _file keys for proc:" ++ processor)

/-- Embedding of is_enabled_module: the form completion field of the first
exported record equals the literal code 2. -/
def is_enabled_module (snap : Snapshot) (module project : String) :
    Except String Bool :=
  match snap.formRecs (MOD_PREFIX ++ module) project with
  | [] => Except.error "IndexError: list index out of range"
  | rc_rec :: _ =>
    match pyLookup rc_rec (MOD_PREFIX ++ module ++ "_complete") with
    | Except.error e => Except.error e
    | Except.ok c => Except.ok (c == "2")

/-- Embedding of is_enabled_processor. -/
def is_enabled_processor (snap : Snapshot) (processor project : String) :
    Except String Bool :=
  match snap.formRecs (PROC_PREFIX ++ processor) project with
  | [] => Except.error "IndexError: list index out of range"
  | rc_rec :: _ =>
    match pyLookup rc_rec (PROC_PREFIX ++ processor ++ "_complete") with
    | Except.error e => Except.error e
    | Except.ok c => Except.ok (c == "2")

/-- Item assignment mod of a record value: used for the name reassignment
the source performs on each loaded record. -/
def yvalDictSet (v : YVal) (k : String) (w : YVal) : YVal :=
  match v with
  | YVal.dict d => YVal.dict (pyAssocSet d k w)
  | other => other

/-- The module loop of load_project: append every enabled module record to
the settings and collect its name. -/
def load_modules_loop (snap : Snapshot) (project : String) :
    List String → DaxProjectSettings → List String →
    Except String (DaxProjectSettings × List String)
  | [], st, pm => Except.ok (st, pm)
  | name :: rest, st, pm =>
    match is_enabled_module snap name project with
    | Except.error e => Except.error e
    | Except.ok false => load_modules_loop snap project rest st pm
    | Except.ok true =>
      match load_module_record snap name project with
      | Except.error e => Except.error e
      | Except.ok m =>
        load_modules_loop snap project rest
          (st.add_module (yvalDictSet m "name" (YVal.str name))) (pm ++ [name])

/-- The processor loop of load_project. -/
def load_processors_loop (snap : Snapshot) (project : String) :
    List String → DaxProjectSettings → List String →
    Except String (DaxProjectSettings × List String)
  | [], st, pp => Except.ok (st, pp)
  | name :: rest, st, pp =>
    match is_enabled_processor snap name project with
    | Except.error e => Except.error e
    | Except.ok false => load_processors_loop snap project rest st pp
    | Except.ok true =>
      match load_processor_record snap name project with
      | Except.error e => Except.error e
      | Except.ok p =>
        load_processors_loop snap project rest
          (st.add_processor (yvalDictSet p "name" (YVal.str name))) (pp ++ [name])

/-- Embedding of load_project: run both loops and return the updated
settings together with the per-project assignment record (comma-joined
module and processor names). -/
def load_project (snap : Snapshot) (settings : DaxProjectSettings)
    (project : String) : Except String (DaxProjectSettings × YVal) :=
  match load_modules_loop snap project (load_module_names snap) settings [] with
  | Except.error e => Except.error e
  | Except.ok (st1, proj_mod) =>
    match load_processors_loop snap project (load_processor_names snap) st1 [] with
    | Except.error e => Except.error e
    | Except.ok (st2, proj_proc) =>
      Except.ok (st2, YVal.dict
        [("project", YVal.str project),
         ("modules", YVal.str (String.intercalate "," proj_mod)),
         ("yamlprocessors", YVal.str (String.intercalate "," proj_proc))])

/-- One materialized settings document: the fixed header, the generation
timestamp comment line, and the dumped body. -/
structure SettingsDoc where
  header : String
  tsLine : String
  body : List (String × YVal)

/-- The timestamp-independent part of a written file: its name, its fixed
header and its dumped body; everything except the generation timestamp
comment line. -/
def stripDoc (p : String × SettingsDoc) :
    String × String × List (String × YVal) :=
  (p.1, p.2.header, p.2.body)

/-- Embedding of write_settings_file: the header, a comment line holding the
timestamp taken once by write_each, and the yaml dump of the settings. -/
def write_settings_file (filename : String) (settings : DaxProjectSettings)
    (timestamp : String) : String × SettingsDoc :=
  (filename,
   { header := FILE_HEADER,
     tsLine := "# " ++ timestamp ++ "\n",
     body := settings.dump })

/-- The per-project loop of write_each. Files written before a fault remain
in the first component; the second component carries the fault if one
occurred. -/
def write_each_loop (snap : Snapshot) (defaults : DaxProjectSettings)
    (localDir now : String) :
    List String → List (String × SettingsDoc) × Except String Unit
  | [] => ([], Except.ok ())
  | name :: rest =>
    match load_project snap defaults name with
    | Except.error e => ([], Except.error e)
    | Except.ok pr =>
      let file := write_settings_file
        (localDir ++ "/settings-" ++ name ++ ".yaml")
        (pr.1.add_project pr.2) now
      let done := write_each_loop snap defaults localDir now rest
      (file :: done.1, done.2)

/-- Embedding of load_defaults: a fresh settings object with the general
section set from the instance settings. -/
def load_defaults (ins : InstanceSettings) : Except String DaxProjectSettings :=
  match general_defaults ins with
  | Except.error e => Except.error e
  | Except.ok g =>
    Except.ok (DaxProjectSettings.set_general ⟨[], [], [], []⟩ g)

/-- Embedding of DaxProjectSettingsManager.write_each: take datetime.now()
once, load the defaults, and write one document per eligible project. Every
iteration starts from a deep copy of the defaults, which the immutable
settings value models exactly. -/
def write_each (ins : InstanceSettings) (snap : Snapshot)
    (user hostFull localDir now : String) :
    List (String × SettingsDoc) × Except String Unit :=
  match load_defaults ins with
  | Except.error e => ([], Except.error e)
  | Except.ok defaults =>
    write_each_loop snap defaults localDir now
      (project_names user hostFull snap.projRows)

/- ===================== Settings reader of bin.py (read_yaml_settings) ===================== -/

/-- Result of one load_from_file call: the call can raise a DaxError (when
the file path does not exist), return a constructed object (abstracted as a
number), or return None when no conventional constructor is found. The
loader itself is an external collaborator (filesystem and dynamic import),
so it enters the model as an oracle. -/
inductive LoadRes where
  | raises (msg : String)
  | ret (obj : Option Nat)

/-- Observable load events of read_yaml_settings: each call of
load_from_file with the filepath and arguments values passed to it. -/
inductive LoadEv where
  | loadFromFile (filepath : Option YVal) (args : Option YVal)

/-- Python truthiness of a yaml value. -/
def yvalTruthy : YVal → Bool
  | YVal.str s => s ≠ ""
  | YVal.int n => n ≠ 0
  | YVal.list xs => !xs.isEmpty
  | YVal.dict kvs => !kvs.isEmpty

/-- The module and processor loading loops of read_yaml_settings: for every
entry call load_from_file on its filepath and arguments and store the result
under its name. A fault of the loader propagates after the call event; an
entry that is not a mapping raises an AttributeError at the get call.
Results are keyed by the string-valued names (the only ones a later string
lookup can hit). -/
def load_items_loop (loader : Option YVal → Option YVal → LoadRes)
    (acc : List (String × Option Nat)) :
    List YVal → List LoadEv × Except String (List (String × Option Nat))
  | [] => ([], Except.ok acc)
  | d :: rest =>
    match d with
    | YVal.dict kvs =>
      let fp := pyGet kvs "filepath"
      let ar := pyGet kvs "arguments"
      let ev := LoadEv.loadFromFile fp ar
      match loader fp ar with
      | LoadRes.raises msg => ([ev], Except.error msg)
      | LoadRes.ret obj =>
        let acc2 :=
          match pyGet kvs "name" with
          | some (YVal.str s) => pyAssocSet acc s obj
          | _ => acc
        let done := load_items_loop loader acc2 rest
        (ev :: done.1, done.2)
    | _ => ([], Except.error "AttributeError: get")

/-- Append a value to the list a project maps to, first occurrence creating
the singleton list, as the dict bookkeeping in the projects loop does. -/
def projAppend {α : Type} (d : List (String × List α)) (k : String) (v : α) :
    List (String × List α) :=
  if d.any (fun p => p.1 == k) then
    d.map (fun p => if p.1 == k then (p.1, p.2 ++ [v]) else p)
  else d ++ [(k, [v])]

/-- The inner comma-separated-name loop for modules and processors of one
project: look each name up in the loaded table (a missing name is a
KeyError) and append the loaded object. -/
def csvAppendLoop (table : List (String × Option Nat)) (key : String)
    (acc : List (String × List (Option Nat))) :
    List String → Except String (List (String × List (Option Nat)))
  | [] => Except.ok acc
  | n :: rest =>
    match table.find? (fun p => p.1 == n) with
    | none => Except.error ("KeyError: " ++ n)
    | some p => csvAppendLoop table key (projAppend acc key p.2) rest

/-- The list comprehension over the yamlprocessors catalog filtering by
name and projecting the yaml_path value. -/
def yamlFilterLoop (yaml_n : String) :
    List YVal → Except String (List (Option YVal))
  | [] => Except.ok []
  | YVal.dict kvs :: rest =>
    match yamlFilterLoop yaml_n rest with
    | Except.error e => Except.error e
    | Except.ok r =>
      if (match pyGet kvs "name" with
          | some (YVal.str s) => s == yaml_n
          | _ => false) then
        Except.ok (pyGet kvs "yaml_path" :: r)
      else Except.ok r
  | _ :: _ => Except.error "AttributeError: get"

/-- The inner yamlprocessors loop of one project: every name replaces the
whole entry for the project with the filtered list. -/
def yamlNamesLoop (yamlprocs : Option YVal) (key : String)
    (acc : List (String × List (Option YVal))) :
    List String → Except String (List (String × List (Option YVal)))
  | [] => Except.ok acc
  | yaml_n :: rest =>
    match yamlprocs with
    | some (YVal.list ys) =>
      match yamlFilterLoop yaml_n ys with
      | Except.error e => Except.error e
      | Except.ok picked => yamlNamesLoop yamlprocs key (pyAssocSet acc key picked) rest
    | _ => Except.error "TypeError: yamlprocessors is not iterable"

/-- Accumulators of the projects loop. -/
structure ProjAcc where
  proj_mod : List (String × List (Option Nat))
  proj_proc : List (String × List (Option Nat))
  yaml_proc : List (String × List (Option YVal))

/-- The projects loop of read_yaml_settings. A project entry is processed
when its project value is a nonempty string (the truthiness test of the
source; non-string project values are not modelled). -/
def projects_loop (mods procs : List (String × Option Nat))
    (yamlprocs : Option YVal) :
    List YVal → ProjAcc → Except String ProjAcc
  | [], acc => Except.ok acc
  | d :: rest, acc =>
    match d with
    | YVal.dict kvs =>
      match pyGet kvs "project" with
      | some (YVal.str proj) =>
        if proj ≠ "" then
          match
            (match pyGet kvs "modules" with
             | some (YVal.str s) =>
               if s ≠ "" then csvAppendLoop mods proj acc.proj_mod (s.splitOn ",")
               else Except.ok acc.proj_mod
             | some v =>
               if yvalTruthy v then Except.error "AttributeError: split"
               else Except.ok acc.proj_mod
             | none => Except.ok acc.proj_mod) with
          | Except.error e => Except.error e
          | Except.ok pm =>
            match
              (match pyGet kvs "processors" with
               | some (YVal.str s) =>
                 if s ≠ "" then csvAppendLoop procs proj acc.proj_proc (s.splitOn ",")
                 else Except.ok acc.proj_proc
               | some v =>
                 if yvalTruthy v then Except.error "AttributeError: split"
                 else Except.ok acc.proj_proc
               | none => Except.ok acc.proj_proc) with
            | Except.error e => Except.error e
            | Except.ok pp =>
              match
                (match pyGet kvs "yamlprocessors" with
                 | some (YVal.str s) =>
                   if s ≠ "" then yamlNamesLoop yamlprocs proj acc.yaml_proc (s.splitOn ",")
                   else Except.ok acc.yaml_proc
                 | some v =>
                   if yvalTruthy v then Except.error "AttributeError: split"
                   else Except.ok acc.yaml_proc
                 | none => Except.ok acc.yaml_proc) with
              | Except.error e => Except.error e
              | Except.ok yp =>
                projects_loop mods procs yamlprocs rest ⟨pm, pp, yp⟩
        else projects_loop mods procs yamlprocs rest acc
      | _ => projects_loop mods procs yamlprocs rest acc
    | _ => Except.error "AttributeError: get"

/-- The launcher value read_yaml_settings hands to the Launcher constructor:
the attrs section of the document extended with the three computed
dictionaries. The Launcher object itself is an external collaborator, so its
construction input is the model result. -/
structure LauncherModel where
  attrs : List (String × YVal)
  project_process_dict : List (String × List (Option Nat))
  project_modules_dict : List (String × List (Option Nat))
  yaml_dict : List (String × List (Option YVal))

/-- Embedding of bin.read_yaml_settings. fileExists models
os.path.isfile; composerMulti models a yaml ComposerError (several
documents); doc is the parsed mapping. The required-key validation runs
before the module and processor catalogs are loaded, so a missing key
yields a DaxError with an empty load-event list. -/
def read_yaml_settings (yaml_file : String) (fileExists composerMulti : Bool)
    (doc : List (String × YVal))
    (loader : Option YVal → Option YVal → LoadRes) :
    List LoadEv × Except String LauncherModel :=
  if !fileExists then
    ([], Except.error ("Path not found for " ++ yaml_file))
  else if composerMulti then
    ([], Except.error ("YAML File " ++ yaml_file ++
      " has more than one document. Please remove any duplicate \"---\" if you have more than one. It should only be at the beginning of your file."))
  else
    match check_default_keys yaml_file doc with
    | Except.error e => ([], Except.error e)
    | Except.ok _ =>
      let attrs := pyGet doc "attrs"
      match pyGet doc "modules" with
      | some (YVal.list modl) =>
        let modsDone := load_items_loop loader [] modl
        match modsDone.2 with
        | Except.error e => (modsDone.1, Except.error e)
        | Except.ok mods =>
          match pyGet doc "processors" with
          | some (YVal.list procl) =>
            let procsDone := load_items_loop loader [] procl
            match procsDone.2 with
            | Except.error e => (modsDone.1 ++ procsDone.1, Except.error e)
            | Except.ok procs =>
              let yamlprocs := pyGet doc "yamlprocessors"
              match pyGet doc "projects" with
              | some (YVal.list projl) =>
                match projects_loop mods procs yamlprocs projl ⟨[], [], []⟩ with
                | Except.error e => (modsDone.1 ++ procsDone.1, Except.error e)
                | Except.ok acc =>
                  match attrs with
                  | some (YVal.dict akvs) =>
                    (modsDone.1 ++ procsDone.1,
                     Except.ok
                       { attrs := akvs,
                         project_process_dict := acc.proj_proc,
                         project_modules_dict := acc.proj_mod,
                         yaml_dict := acc.yaml_proc })
                  | _ => (modsDone.1 ++ procsDone.1, Except.error "TypeError: attrs")
              | _ => (modsDone.1 ++ procsDone.1, Except.error "TypeError: projects is not iterable")
          | _ => (modsDone.1, Except.error "TypeError: processors is not iterable")
      | _ => ([], Except.error "TypeError: modules is not iterable")

/- ===================== Helper lemmas ===================== -/

theorem pySplitChar_ne_nil (sep : Char) (cs : List Char) :
    pySplitChar sep cs ≠ [] := by
  cases cs with
  | nil => simp [pySplitChar]
  | cons c rest =>
    simp only [pySplitChar]
    by_cases hc : c = sep <;> simp [hc]

theorem pySplitChar_not_mem (sep : Char) :
    ∀ (cs : List Char), ∀ p ∈ pySplitChar sep cs, sep ∉ p := by
  intro cs
  induction cs with
  | nil =>
    intro p hp
    simp only [pySplitChar, List.mem_singleton] at hp
    subst hp; simp
  | cons c rest ih =>
    intro p hp
    simp only [pySplitChar] at hp
    cases hr : pySplitChar sep rest with
    | nil => exact absurd hr (pySplitChar_ne_nil sep rest)
    | cons hh tt =>
      rw [hr] at hp
      by_cases hc : c = sep
      · rw [if_pos hc] at hp
        rcases List.mem_cons.mp hp with rfl | hp2
        · simp
        · exact ih p (hr ▸ hp2)
      · rw [if_neg hc] at hp
        simp only [List.headD_cons, List.tail_cons] at hp
        rcases List.mem_cons.mp hp with rfl | hp2
        · intro hmem
          rcases List.mem_cons.mp hmem with rfl | hmem2
          · exact hc rfl
          · exact ih hh (hr ▸ List.mem_cons_self hh tt) hmem2
        · exact ih p (hr ▸ List.mem_cons_of_mem hh hp2)

theorem mem_of_mem_trimChars {c : Char} {cs : List Char}
    (h : c ∈ trimChars cs) : c ∈ cs := by
  unfold trimChars at h
  rw [List.mem_reverse] at h
  have h2 := (List.dropWhile_sublist Char.isWhitespace).subset h
  rw [List.mem_reverse] at h2
  exact (List.dropWhile_sublist Char.isWhitespace).subset h2

theorem pyIntChars_nonneg {cs : List Char} {p : Int}
    (hnd : ('-') ∉ cs) (h : pyIntChars cs = some p) : 0 ≤ p := by
  rw [pyIntChars] at h
  cases htr : trimChars cs with
  | nil => simp [htr] at h
  | cons c ds =>
    simp only [htr] at h
    by_cases hplus : c = '+'
    · subst hplus
      rw [if_pos rfl] at h
      rcases Option.map_eq_some'.mp h with ⟨n, _, hnp⟩
      have hcast : Int.ofNat n = p := hnp
      rw [← hcast]
      exact Int.ofNat_nonneg n
    · rw [if_neg hplus] at h
      by_cases hminus : c = '-'
      · exfalso
        apply hnd
        apply mem_of_mem_trimChars
        rw [htr, ← hminus]
        exact List.mem_cons_self c ds
      · rw [if_neg hminus] at h
        rcases Option.map_eq_some'.mp h with ⟨n, _, hnp⟩
        have hcast : Int.ofNat n = p := hnp
        rw [← hcast]
        exact Int.ofNat_nonneg n

theorem parseLockLine_nonneg {line host : String} {pid : Int}
    (h : parseLockLine line = some (host, pid)) : 0 ≤ pid := by
  rw [parseLockLine] at h
  cases hsp : pySplitChar '-' line.data with
  | nil => simp [hsp] at h
  | cons a t =>
    cases t with
    | nil => simp [hsp] at h
    | cons b t2 =>
      cases t2 with
      | nil =>
        simp only [hsp] at h
        cases hint : pyIntChars b with
        | none => simp [hint] at h
        | some q =>
          simp only [hint] at h
          have hq : q = pid := congrArg Prod.snd (Option.some.inj h)
          have hb : ('-') ∉ b :=
            pySplitChar_not_mem '-' line.data b
              (by rw [hsp]; exact List.mem_cons_of_mem a (List.mem_cons_self b []))
          exact hq ▸ pyIntChars_nonneg hb hint
      | cons c t3 => simp [hsp] at h

theorem pid_exists_eq_false_iff {probe : Int → KillRes} {pid : Int}
    (hnn : 0 ≤ pid) :
    pid_exists probe pid = false ↔ probe pid = KillRes.noSuchProcess := by
  unfold pid_exists
  rw [if_neg (by omega)]
  cases probe pid <;> simp

/- ===================== Claim theorems ===================== -/

/-- Claim C3: check_lockfile deletes a lock file if and only if the file was
readable, its line parses as host and pid, the recorded host equals the local
short hostname, and the liveness probe confirms the process is gone
(ProcessLookupError). Unreadable or unparsable files, files of a different
host, and files with an inconclusive probe (PermissionError) are never
deleted. -/
theorem check_lockfile_deletes_iff (hostFull : String) (probe : Int → KillRes)
    (content : Option String) :
    check_lockfile hostFull probe content = true ↔
      ∃ line host pid, content = some line ∧
        parseLockLine line = some (host, pid) ∧
        host = shortHost hostFull ∧ probe pid = KillRes.noSuchProcess := by
  constructor
  · intro h
    cases content with
    | none => simp [check_lockfile] at h
    | some line =>
      cases hp : parseLockLine line with
      | none => simp [check_lockfile, hp] at h
      | some pr =>
        obtain ⟨host, pid⟩ := pr
        simp only [check_lockfile, hp] at h
        by_cases hh : host = shortHost hostFull
        · rw [if_pos hh] at h
          have hnn := parseLockLine_nonneg hp
          refine ⟨line, host, pid, rfl, hp, hh, ?_⟩
          by_cases hpe : pid_exists probe pid = true
          · rw [hpe] at h; simp at h
          · exact (pid_exists_eq_false_iff hnn).mp
              (by revert hpe; cases pid_exists probe pid <;> simp)
        · rw [if_neg hh] at h
          simp at h
  · rintro ⟨line, host, pid, rfl, hp, hh, hdead⟩
    have hnn := parseLockLine_nonneg hp
    simp only [check_lockfile, hp]
    rw [if_pos hh, (pid_exists_eq_false_iff hnn).mpr hdead]
    simp

/-- Claim C4 counterexample: on a host whose short hostname contains capital
letters, a project whose recorded instance identity matches the identity the
code computes (no lowercasing) is included by project_names even though that
identity differs from the lowercased identity the claim describes, so the
claim that only lowercase-matching projects appear is false. -/
theorem project_names_lowercase_counterexample :
    "P" ∈ project_names "u" "HOST.example.com"
        [⟨"P", "u@HOST", "Complete"⟩] ∧
      "u@HOST" ≠ get_this_instance_lowered "u" "HOST.example.com" := by
  constructor
  · decide
  · decide

/-- Claim C4 amended: a project name appears in project_names only if some
registry row carries that name, its recorded instance identity equals the
identity string user at short hostname exactly as reported (no case
folding), and its status label is the literal Complete. -/
theorem project_names_membership_conditions (user hostFull : String)
    (plist : List ProjRow) (n : String)
    (h : n ∈ project_names user hostFull plist) :
    ∃ x ∈ plist, x.project_name = n ∧
      x.gen_daxinstance = get_this_instance user hostFull ∧
      x.general_complete = "Complete" := by
  unfold project_names at h
  obtain ⟨x, hx, rfl⟩ := List.mem_map.mp h
  have hx2 := List.mem_filter.mp hx
  have hx3 := List.mem_filter.mp hx2.1
  refine ⟨x, hx3.1, rfl, ?_, ?_⟩
  · simpa using hx3.2
  · simpa using hx2.2

/-- Witness for the amended claim C4 theorem at a concrete registry row. -/
theorem project_names_membership_conditions_witness :
    ∃ x ∈ [ProjRow.mk "P" "u@h" "Complete"], x.project_name = "P" ∧
      x.gen_daxinstance = get_this_instance "u" "h.vanderbilt.edu" ∧
      x.general_complete = "Complete" :=
  project_names_membership_conditions "u" "h.vanderbilt.edu"
    [ProjRow.mk "P" "u@h" "Complete"] "P" (by decide)

/-- Claim C10: in every cycle trace, the stale-lock reap and the catalog
regeneration precede every build submission, each project's update precedes
its launch, and the upload join precedes the build-pool join. -/
theorem cycle_ordering (projects : List String) (p : String)
    (hp : p ∈ projects) :
    (precedes CycleEv.reapLocks (CycleEv.submitBuild p) (main_trace projects) ∧
     precedes CycleEv.regenCatalog (CycleEv.submitBuild p) (main_trace projects) ∧
     precedes (CycleEv.runUpdate p) (CycleEv.runLaunch p) (main_trace projects)) ∧
    precedes CycleEv.uploadJoin CycleEv.buildPoolJoin (main_trace projects) := by
  obtain ⟨a, b, rfl⟩ := List.append_of_mem hp
  refine ⟨⟨?_, ?_, ?_⟩, ?_⟩
  · exact ⟨[], CycleEv.regenCatalog :: a.map CycleEv.submitBuild,
      b.map CycleEv.submitBuild ++ (a ++ p :: b).map CycleEv.runUpdate ++
        (a ++ p :: b).map CycleEv.runLaunch ++
        [CycleEv.uploadStart, CycleEv.uploadJoin, CycleEv.buildPoolJoin],
      by simp [main_trace, manager_run]⟩
  · exact ⟨[CycleEv.reapLocks], a.map CycleEv.submitBuild,
      b.map CycleEv.submitBuild ++ (a ++ p :: b).map CycleEv.runUpdate ++
        (a ++ p :: b).map CycleEv.runLaunch ++
        [CycleEv.uploadStart, CycleEv.uploadJoin, CycleEv.buildPoolJoin],
      by simp [main_trace, manager_run]⟩
  · exact ⟨CycleEv.reapLocks :: CycleEv.regenCatalog ::
        (a ++ p :: b).map CycleEv.submitBuild ++ a.map CycleEv.runUpdate,
      b.map CycleEv.runUpdate ++ a.map CycleEv.runLaunch,
      b.map CycleEv.runLaunch ++
        [CycleEv.uploadStart, CycleEv.uploadJoin, CycleEv.buildPoolJoin],
      by simp [main_trace, manager_run]⟩
  · exact ⟨CycleEv.reapLocks :: CycleEv.regenCatalog ::
        (a ++ p :: b).map CycleEv.submitBuild ++
        (a ++ p :: b).map CycleEv.runUpdate ++
        (a ++ p :: b).map CycleEv.runLaunch ++ [CycleEv.uploadStart],
      [], [],
      by simp [main_trace, manager_run]⟩

/-- Claim C1: when the build lock is absent and the registry acknowledges the
start import, a fault raised by the dax.bin.build collaborator propagates out
of the run_build task uncaught, the start timestamp written before the fault
remains in the registry, and the finish timestamp is never written because
set_last_build_complete is never reached. -/
theorem run_build_fault_propagates (rd bs : String) (locks : List String)
    (project sf : String) (lr : Option String) (f : PFault) (tS tF : String)
    (reg : RegRecord) (h : is_locked rd bs locks sf = false) :
    run_build rd bs locks project sf lr (Except.error f) true tS tF reg =
      ({ reg with build_laststarttime := tS, build_status_complete := "1" },
       [BEv.setStart tS, BEv.invokeBinBuild sf [(project, lr)]],
       Except.error f) ∧
    ∀ t, BEv.setComplete t ∉
      (run_build rd bs locks project sf lr (Except.error f) true tS tF reg).2.1 := by
  constructor
  · simp [run_build, set_last_build_start, h]
  · intro t
    simp [run_build, set_last_build_start, h]

/-- Witness for claim C1 at a concrete unlocked project. -/
theorem run_build_fault_propagates_witness :
    run_build "r" "B" [] "P" "settings-P.yaml" none
        (Except.error ⟨"XnatError", "boom", false⟩) true
        "2020-01-01 10:00:00" "2020-01-01 10:05:00"
        ⟨"", "", "", none, ""⟩ =
      ({ build_laststarttime := "2020-01-01 10:00:00",
         build_lastcompletestarttime := "",
         build_lastcompletefinishtime := "",
         build_lastcompleteduration := none,
         build_status_complete := "1" },
       [BEv.setStart "2020-01-01 10:00:00",
        BEv.invokeBinBuild "settings-P.yaml" [("P", none)]],
       Except.error ⟨"XnatError", "boom", false⟩) :=
  (run_build_fault_propagates "r" "B" [] "P" "settings-P.yaml" none
    ⟨"XnatError", "boom", false⟩ "2020-01-01 10:00:00" "2020-01-01 10:05:00"
    ⟨"", "", "", none, ""⟩ rfl).1

/-- Claim C2 finding: every settings document the catalog materializes (dump
of a settings value whose general section comes from general_defaults) lacks
the processors key entirely, because dump stores the processor records under
the yamlprocessors key and general_defaults never supplies a processors
entry; check_default_keys therefore rejects every generated document with a
DaxError naming processors, contradicting the claim that read-back cannot
raise. -/
theorem generated_settings_missing_processors_key (ins : InstanceSettings)
    (ql : Int) (procs mods projs : List YVal) (yf : String) :
    check_default_keys yf
      (DaxProjectSettings.dump ⟨generalRecord ins ql, procs, mods, projs⟩) =
      Except.error ("YAML File " ++ yf ++ " does not have " ++ "processors" ++
        " defined. See example.") := by
  rfl

/-- Claim C5 finding: when the update or launch collaborator raises an
ordinary Python 3 exception (one without a message attribute), the handler
logs only its fixed caught-exception line and then itself crashes at the
e.message access: the class-and-message line is never logged, the stage flag
file is never unlocked, and an AttributeError propagates out of the
invocation instead of a normal return, contradicting the claimed
log-release-return behavior. -/
theorem stage_fault_handler_crashes (rd us ls sp cls msg : String) :
    update_tasks rd us sp (Except.ok ()) (Except.error ⟨cls, msg, false⟩) =
      ([StageEv.readSettings, StageEv.invokeCollab,
        StageEv.logCritical "Caught exception updating tasks in bin.update_tasks"],
       Except.error ⟨"AttributeError", cls ++ " object has no attribute message", false⟩) ∧
    launch_jobs rd ls sp (Except.ok ()) (Except.error ⟨cls, msg, false⟩) =
      ([StageEv.readSettings, StageEv.invokeCollab,
        StageEv.logCritical "Caught exception launching jobs in bin.launch_jobs"],
       Except.error ⟨"AttributeError", cls ++ " object has no attribute message", false⟩) :=
  ⟨rfl, rfl⟩

/-- Claim C6: a run_build task skips with only a warning and no registry
write when the build lock exists, and otherwise records the start timestamp,
invokes the build collaborator with the settings document and the last run,
and records the finish timestamp and the derived duration. -/
theorem run_build_lock_gate (rd bs : String) (locks : List String)
    (project sf : String) (lr : Option String) (tS tF : String)
    (reg : RegRecord) :
    run_build rd bs locks project sf lr (Except.ok ()) true tS tF reg =
      if is_locked rd bs locks sf then (reg, [BEv.warnLocked], Except.ok ())
      else
        ({ reg with build_laststarttime := tS,
                    build_lastcompletestarttime := tS,
                    build_lastcompletefinishtime := tF,
                    build_lastcompleteduration := duration tS tF,
                    build_status_complete := "2" },
         [BEv.setStart tS, BEv.invokeBinBuild sf [(project, lr)],
          BEv.setComplete tF],
         Except.ok ()) := by
  by_cases h : is_locked rd bs locks sf
  · simp [run_build, h]
  · simp [run_build, set_last_build_start, set_last_build_complete, h]

theorem write_each_loop_strip (snap : Snapshot) (defaults : DaxProjectSettings)
    (dir t1 t2 : String) :
    ∀ names : List String,
      ((write_each_loop snap defaults dir t1 names).1.map stripDoc =
        (write_each_loop snap defaults dir t2 names).1.map stripDoc) ∧
      (write_each_loop snap defaults dir t1 names).2 =
        (write_each_loop snap defaults dir t2 names).2 := by
  intro names
  induction names with
  | nil => exact ⟨rfl, rfl⟩
  | cons name rest ih =>
    cases hl : load_project snap defaults name with
    | error e => simp [write_each_loop, hl]
    | ok pr =>
      constructor
      · simp [write_each_loop, hl, write_settings_file, stripDoc, ih.1]
      · simp [write_each_loop, hl, ih.2]

theorem write_each_loop_tsLine (snap : Snapshot) (defaults : DaxProjectSettings)
    (dir t : String) :
    ∀ names : List String,
      (write_each_loop snap defaults dir t names).1.map (fun p => p.2.tsLine) =
        (write_each_loop snap defaults dir t names).1.map
          (fun _ => "# " ++ t ++ "\n") := by
  intro names
  induction names with
  | nil => rfl
  | cons name rest ih =>
    cases hl : load_project snap defaults name with
    | error e => simp [write_each_loop, hl]
    | ok pr => simp [write_each_loop, hl, write_settings_file, ih]

/-- Claim C7: with the registry snapshot unchanged, two catalog
regenerations produce the same file names, headers, bodies and outcome; the
timestamp comment line is the only part carrying the generation time, and it
equals the timestamp comment for every written document. -/
theorem write_each_deterministic_modulo_timestamp (ins : InstanceSettings)
    (snap : Snapshot) (user hostFull dir t1 t2 : String) :
    ((write_each ins snap user hostFull dir t1).1.map stripDoc =
      (write_each ins snap user hostFull dir t2).1.map stripDoc) ∧
    ((write_each ins snap user hostFull dir t1).2 =
      (write_each ins snap user hostFull dir t2).2) ∧
    ((write_each ins snap user hostFull dir t1).1.map (fun p => p.2.tsLine) =
      (write_each ins snap user hostFull dir t1).1.map
        (fun _ => "# " ++ t1 ++ "\n")) := by
  cases hd : load_defaults ins with
  | error e => simp [write_each, hd]
  | ok defaults =>
    refine ⟨?_, ?_, ?_⟩
    · simpa [write_each, hd] using
        (write_each_loop_strip snap defaults dir t1 t2
          (project_names user hostFull snap.projRows)).1
    · simpa [write_each, hd] using
        (write_each_loop_strip snap defaults dir t1 t2
          (project_names user hostFull snap.projRows)).2
    · simpa [write_each, hd] using
        write_each_loop_tsLine snap defaults dir t1
          (project_names user hostFull snap.projRows)

theorem checkKeysLoop_error_of_missing (doc : List (String × YVal)) (yf : String) :
    ∀ keys k, k ∈ keys → hasKey doc k = false →
      ∃ e, checkKeysLoop doc yf keys = Except.error e := by
  intro keys
  induction keys with
  | nil => intro k hk; exact absurd hk (List.not_mem_nil k)
  | cons k0 rest ih =>
    intro k hk hf
    by_cases h0 : hasKey doc k0 = true
    · rcases List.mem_cons.mp hk with rfl | hk2
      · rw [hf] at h0; exact absurd h0 (by simp)
      · obtain ⟨e, he⟩ := ih k hk2 hf
        exact ⟨e, by simp [checkKeysLoop, raise_yaml_error_if_no_key, h0, he]⟩
    · have h0f : hasKey doc k0 = false := by
        revert h0; cases hasKey doc k0 <;> simp
      refine ⟨"YAML File " ++ yf ++ " does not have " ++ k0 ++
        " defined. See example.", ?_⟩
      simp [checkKeysLoop, raise_yaml_error_if_no_key, h0f]

/-- Claim C8: a settings document missing any of the five required top-level
keys makes read_yaml_settings raise the configuration fault produced by
check_default_keys, with an empty load-event list, so no module or processor
is loaded before the abort. -/
theorem read_yaml_settings_missing_key_aborts (yf : String)
    (doc : List (String × YVal)) (loader : Option YVal → Option YVal → LoadRes)
    (h : ∃ k, k ∈ requiredKeys ∧ hasKey doc k = false) :
    ∃ e, check_default_keys yf doc = Except.error e ∧
      read_yaml_settings yf true false doc loader = ([], Except.error e) := by
  obtain ⟨k, hk, hf⟩ := h
  obtain ⟨e, he⟩ := checkKeysLoop_error_of_missing doc yf requiredKeys k hk hf
  refine ⟨e, he, ?_⟩
  simp [read_yaml_settings, check_default_keys, he]

/-- Witness for claim C8 at the empty document. -/
theorem read_yaml_settings_missing_key_aborts_witness :
    ∃ e, check_default_keys "settings-P.yaml" [] = Except.error e ∧
      read_yaml_settings "settings-P.yaml" true false []
        (fun _ _ => LoadRes.ret none) = ([], Except.error e) :=
  read_yaml_settings_missing_key_aborts "settings-P.yaml" []
    (fun _ _ => LoadRes.ret none) ⟨"projects", by decide, rfl⟩

/-- Claim C9: duration formats the difference of two well-formed timestamps
as hours and minutes when it reaches a whole hour and as minutes only when it
is below one hour, matching the two examples of the specification, and any
parse failure yields None instead of a fault. -/
theorem duration_format_spec (s f : String) :
    ((parseRC s = none ∨ parseRC f = none) → duration s f = none) ∧
    (∀ ds df, parseRC s = some ds → parseRC f = some df →
      ((3600 : Int) ≤ dtSecs df - dtSecs ds →
        duration s f = some (toString (Int.fdiv (dtSecs df - dtSecs ds) 3600) ++
          " hrs " ++
          toString (Int.fdiv (Int.fmod (dtSecs df - dtSecs ds) 3600) 60) ++
          " mins")) ∧
      (dtSecs df - dtSecs ds < 3600 →
        duration s f =
          some (toString (Int.fdiv (Int.fmod (dtSecs df - dtSecs ds) 3600) 60) ++
            " mins"))) ∧
    duration "2020-01-01 10:00:00" "2020-01-01 11:05:00" = some "1 hrs 5 mins" ∧
    duration "2020-01-01 10:00:00" "2020-01-01 10:05:00" = some "5 mins" := by
  refine ⟨?_, ?_, by decide, by decide⟩
  · rintro (h | h)
    · cases hf : parseRC f <;> simp [duration, h, hf]
    · cases hs : parseRC s <;> simp [duration, h, hs]
  · intro ds df h1 h2
    have hfd : Int.fdiv (dtSecs df - dtSecs ds) 3600 =
        (dtSecs df - dtSecs ds) / 3600 :=
      Int.fdiv_eq_ediv _ (by norm_num)
    constructor
    · intro hge
      have hpos : Int.fdiv (dtSecs df - dtSecs ds) 3600 > 0 := by
        rw [hfd]; omega
      simp [duration, h1, h2, hpos]
    · intro hlt
      have hneg : ¬ Int.fdiv (dtSecs df - dtSecs ds) 3600 > 0 := by
        rw [hfd]; omega
      simp [duration, h1, h2, hneg]

/-- Witness for claim C9 at a malformed start timestamp. -/
theorem duration_format_spec_witness :
    duration "bad" "2020-01-01 10:00:00" = none :=
  (duration_format_spec "bad" "2020-01-01 10:00:00").1 (Or.inl rfl)

/-- Witness for claim C10 at the one-project trace. -/
theorem cycle_ordering_witness :
    (precedes CycleEv.reapLocks (CycleEv.submitBuild "A") (main_trace ["A"]) ∧
     precedes CycleEv.regenCatalog (CycleEv.submitBuild "A") (main_trace ["A"]) ∧
     precedes (CycleEv.runUpdate "A") (CycleEv.runLaunch "A") (main_trace ["A"])) ∧
    precedes CycleEv.uploadJoin CycleEv.buildPoolJoin (main_trace ["A"]) :=
  cycle_ordering ["A"] "A" (by decide)

end Dax
